import Mathlib

/-!
Verification of the GoChat WebSocket chat backend core against its
natural-language specification.

The definitions below are a shallow embedding of the Go source:

* `hubRegister` / `hubUnregister` embed the two cases of `Hub.Run`
  (internal/server/websocket.go): the per-instance registry
  `rooms : map[int64]map[*Client]bool` is modelled as a function
  `Int → Option (Finset ConnId)` where `none` models an absent key.
* `ClientState` and `step` embed one `Client` (its session fields
  `ID`, `Username`, `RoomID`, its open/closed socket) together with the
  dispatcher loop of `readPump` / `readPumpWithUserClient`.  The two
  read loops are textually identical except for the auth backend, so the
  backend is a parameter (`AuthBackend`): `AuthBackend.jwt` embeds
  `Client.authenticate` (local JWT validation) and `AuthBackend.userSvc`
  embeds `Client.authenticateWithUserClient` (User-Service validation).
  Outbound frames enqueued on the client's send channel are logged in
  `outbox` (`OutMsg.err m` stands for the JSON error frame with message
  m, `OutMsg.success m` for the success frame, and so on); register /
  unregister events the reader enqueues for the Hub are logged in
  `hubLog`; messages appended through the MessageStore are logged in
  `appended`, published room events in `published`.
* `clientJoinRoom` embeds `Client.joinRoom` plus the service/biz
  pipeline it calls (`RoomService.GetRoom` → `RoomUseCase.GetRoom` →
  `RoomRepo.IsUserInRoom`); `clientSendMessage` embeds
  `Client.sendMessage` plus `ChatService.SendMessage` →
  `ChatUseCase.SendMessage` → `validateSendMessageRequest`.
  External collaborators (membership directory, room/user store, message
  store, Redis publish) are parameters of `Env`.
* `safeSend` embeds `Client.safeSend` (non-blocking enqueue on the
  capacity-256 send channel with a dropped-message counter) and
  `deliverOne` one per-recipient enqueue of the Redis fan-out loop
  `Hub.subscribeToRedis`.
* `AStep` is a small-step interleaving semantics for the room-switch
  path: the reader's atomic actions inside `Client.joinRoom` (enqueue
  unregister, write the shared `RoomID` field, enqueue register, send
  the `room_joined` ack) interleaved with the Hub goroutine dequeuing
  register/unregister events.  Crucially, as in the source, a dequeued
  event carries only the client pointer and `Hub.Run` reads the
  client's *current* `RoomID` field at processing time.
* `handleUpload` embeds `HandleUpload` (the `/upload` gateway) together
  with `authenticateUpload`, the size/MIME checks and
  `storage.GetMessageType` / `storage.AllowedFileTypes` /
  `storage.MaxFileSize` from internal/storage/minio.go.
-/

namespace GoChat

/-! ## Hub registry (Hub.Run) -/

/-- Process-local identity of a `*Client` pointer. -/
abbrev ConnId := Nat

/-- `Hub.rooms : map[int64]map[*Client]bool`; `none` = key absent. -/
abbrev Rooms := Int → Option (Finset ConnId)

def emptyRooms : Rooms := fun _ => none

/-- The register case of `Hub.Run`: ensure `rooms[roomId]` exists and insert
the client.  `roomId` is the value of `client.RoomID` read at dequeue time. -/
def hubRegister (rooms : Rooms) (c : ConnId) (roomId : Int) : Rooms :=
  fun r => if r = roomId then some (insert c ((rooms roomId).getD ∅)) else rooms r

/-- The unregister case of `Hub.Run`: if the client is present in
`rooms[roomId]`, remove it and delete the key when the set becomes empty;
otherwise do nothing.  `roomId` is `client.RoomID` read at dequeue time. -/
def hubUnregister (rooms : Rooms) (c : ConnId) (roomId : Int) : Rooms :=
  match rooms roomId with
  | none => rooms
  | some clients =>
    if c ∈ clients then
      let remaining := clients.erase c
      fun r => if r = roomId then (if remaining = ∅ then none else some remaining) else rooms r
    else rooms

/-- Membership of a connection in a room entry of `Hub.rooms`. -/
def memRoom (rooms : Rooms) (c : ConnId) (r : Int) : Prop :=
  c ∈ (rooms r).getD ∅

instance (rooms : Rooms) (c : ConnId) (r : Int) : Decidable (memRoom rooms c r) := by
  unfold memRoom; infer_instance

/-! ## Wire objects and dispatcher state -/

/-- Inbound `WebSocketMessage` (JSON fields absent from a frame decode to
their zero values, hence the defaults). -/
structure WSMessage where
  ty : String
  roomId : Int := 0
  content : String := ""
  token : String := ""
  messageType : String := ""
  fileURL : String := ""
  fileName : String := ""
  fileSize : Int := 0
  mimeType : String := ""
deriving DecidableEq

/-- Outbound frames enqueued by the server on one client's send channel.
`err m` stands for the JSON frame with type error and message m,
`success m` for the success frame, `roomJoined r` for the room_joined
acknowledgement, `pong` for the pong reply. -/
inductive OutMsg
| success (message : String)
| err (message : String)
| roomJoined (roomId : Int)
| pong
deriving DecidableEq

/-- A register/unregister event the reader enqueues for the Hub; the recorded
room id is the value of the client's `RoomID` field at enqueue time. -/
inductive HubEv
| register (roomId : Int)
| unregister (roomId : Int)
deriving DecidableEq

/-- The biz-level `Message` entity (fields persisted by the MessageStore). -/
structure Message where
  roomId : Int
  userId : Int
  username : String
  content : String
  ty : String
  fileURL : String
  fileName : String
  fileSize : Int
  mimeType : String
deriving DecidableEq

/-- One `Client`: session fields owned by the reader plus logs of the
externally observable effects of processing inbound frames. -/
structure ClientState where
  id : Int := 0
  username : String := ""
  roomId : Int := 0
  isOpen : Bool := true
  outbox : List OutMsg := []
  hubLog : List HubEv := []
  appended : List Message := []
  published : List Message := []
deriving DecidableEq

def initClient : ClientState := {}

/-- `chatV1.SendMessageRequest`. -/
structure SendReq where
  roomId : Int
  content : String
  ty : String
  fileURL : String
  fileName : String
  fileSize : Int
  mimeType : String
deriving DecidableEq

/-! ## Auth backends -/

/-- A parsed JWT: `valid` is signature/temporal validity (`err == nil &&
token.Valid`), the two claims model `claims["user_id"]` and
`claims["username"]`, each possibly absent. -/
structure JWTToken where
  valid : Bool
  userIdClaim : Option Int
  usernameClaim : Option String
deriving DecidableEq

/-- `Client.authenticate` (monolith JWT path): parse failure or invalid token
fails; present claims overwrite `ID` / `Username`; absent claims leave the
previous field value; finally `ID == 0 || Username == ""` fails.  Returns the
(possibly mutated) client and whether authentication succeeded. -/
def authenticateJWT (parse : String → JWTToken) (c : ClientState) (tokenString : String) :
    ClientState × Bool :=
  if tokenString = "" then (c, false)
  else
    let tok := parse tokenString
    if tok.valid = false then (c, false)
    else
      let c1 : ClientState := match tok.userIdClaim with
        | some u => { c with id := u }
        | none => c
      let c2 : ClientState := match tok.usernameClaim with
        | some n => { c1 with username := n }
        | none => c1
      if c2.id = 0 ∨ c2.username = "" then (c2, false) else (c2, true)

/-- `Client.authenticateWithUserClient` (microservices path):
`userClient.ValidateToken` yields `(userId, username)` or an error; a zero
user id is rejected; on success both fields are overwritten. -/
def authenticateWithUserClient (validate : String → Option (Int × String))
    (c : ClientState) (tokenString : String) : ClientState × Bool :=
  if tokenString = "" then (c, false)
  else
    match validate tokenString with
    | none => (c, false)
    | some (userID, username) =>
      if userID = 0 then (c, false)
      else ({ c with id := userID, username := username }, true)

/-- Which of the two read-loop variants is running. -/
inductive AuthBackend
| jwt (parse : String → JWTToken)
| userSvc (validate : String → Option (Int × String))

/-- External collaborators of the dispatcher.  `isUserInRoom roomId userId`
is `RoomRepo.IsUserInRoom` (argument order as in the source); `getRoomByID`
is `RoomRepo.GetRoomByID` (we only need existence); `getUser` is
`UserRepo.GetUserByID` restricted to the username the pipeline reads;
`storeOk` / `publishOk` are whether `ChatRepo.SendMessage` and the Redis
publish succeed. -/
structure Env where
  backend : AuthBackend
  isUserInRoom : Int → Int → Bool
  getRoomByID : Int → Option Unit
  getUser : Int → Option String
  storeOk : Bool
  publishOk : Bool

def authC (env : Env) : ClientState → String → ClientState × Bool :=
  match env.backend with
  | AuthBackend.jwt parse => authenticateJWT parse
  | AuthBackend.userSvc validate => authenticateWithUserClient validate

/-! ## join_room pipeline -/

/-- `RoomUseCase.GetRoom`: membership check via `IsUserInRoom`, then room
lookup.  Access is denied unless the user is a member. -/
def roomUseCaseGetRoom (env : Env) (userId roomId : Int) : Except String Unit :=
  if env.isUserInRoom roomId userId = false then Except.error "access denied to room"
  else
    match env.getRoomByID roomId with
    | none => Except.error "room not found"
    | some _ => Except.ok ()

/-- `RoomService.GetRoom`: extract the user id from the request context
(`getUserIDFromContext` rejects a non-positive id), then `RoomUseCase.GetRoom`. -/
def roomServiceGetRoom (env : Env) (ctxUserId roomId : Int) : Except String Unit :=
  if ctxUserId ≤ 0 then Except.error "user not found"
  else roomUseCaseGetRoom env ctxUserId roomId

/-- `Client.joinRoom`: reject a non-positive room id; verify access through
`RoomService.GetRoom`; on success enqueue an unregister for the Hub when
already in a room, overwrite `RoomID`, enqueue a register, and send the
room_joined acknowledgement. -/
def clientJoinRoom (env : Env) (c : ClientState) (roomID : Int) :
    ClientState × Except String Unit :=
  if roomID ≤ 0 then (c, Except.error "invalid room ID")
  else
    match roomServiceGetRoom env c.id roomID with
    | Except.error e => (c, Except.error ("cannot access room: " ++ e))
    | Except.ok _ =>
      let c1 := if c.roomId ≠ 0 then { c with hubLog := c.hubLog ++ [HubEv.unregister c.roomId] } else c
      let c2 := { c1 with roomId := roomID }
      let c3 := { c2 with hubLog := c2.hubLog ++ [HubEv.register roomID] }
      ({ c3 with outbox := c3.outbox ++ [OutMsg.roomJoined roomID] }, Except.ok ())

/-! ## send_message pipeline -/

/-- `ChatUseCase.validateSendMessageRequest`: positive room id; type
defaulted to text and restricted to text / image / file; image and file
require non-empty file_url and file_name, text requires non-empty content;
content is capped at 4000 bytes (`len` on a Go string counts bytes). -/
def validateSendMessageRequest (req : SendReq) : Except String SendReq :=
  if req.roomId ≤ 0 then Except.error "invalid room ID"
  else
    let ty := if req.ty = "" then "text" else req.ty
    if ¬ (ty = "text" ∨ ty = "image" ∨ ty = "file") then Except.error "invalid message type"
    else if ty = "image" ∨ ty = "file" then
      if req.fileURL = "" then Except.error "file_url is required for image/file messages"
      else if req.fileName = "" then Except.error "file_name is required for image/file messages"
      else if 4000 < req.content.utf8ByteSize then Except.error "message content too long"
      else Except.ok { req with ty := ty }
    else
      if req.content = "" then Except.error "message content cannot be empty"
      else if 4000 < req.content.utf8ByteSize then Except.error "message content too long"
      else Except.ok { req with ty := ty }

/-- `ChatUseCase.SendMessage`: validate, check membership, resolve the
username, then append through the MessageStore. -/
def bizSendMessage (env : Env) (userId : Int) (req : SendReq) : Except String Message :=
  match validateSendMessageRequest req with
  | Except.error e => Except.error e
  | Except.ok req1 =>
    if env.isUserInRoom req1.roomId userId = false then
      Except.error "cannot send message to this room"
    else
      match env.getUser userId with
      | none => Except.error "user not found"
      | some uname =>
        if env.storeOk then
          Except.ok { roomId := req1.roomId, userId := userId, username := uname,
                      content := req1.content, ty := req1.ty, fileURL := req1.fileURL,
                      fileName := req1.fileName, fileSize := req1.fileSize,
                      mimeType := req1.mimeType }
        else Except.error "store failed"

/-- `ChatService.SendMessage`: context user id check, then the use case. -/
def serviceSendMessage (env : Env) (ctxUserId : Int) (req : SendReq) : Except String Message :=
  if ctxUserId ≤ 0 then Except.error "user not found"
  else bizSendMessage env ctxUserId req

/-- The effective message type of an inbound send_message frame (the
websocket handler defaults an absent message_type to text). -/
def wsMsgType (m : WSMessage) : String :=
  if m.messageType = "" then "text" else m.messageType

/-- The `chatV1.SendMessageRequest` that `Client.sendMessage` builds from
the inbound frame and the session state. -/
def wsReq (c : ClientState) (m : WSMessage) : SendReq :=
  { roomId := c.roomId, content := m.content, ty := wsMsgType m, fileURL := m.fileURL,
    fileName := m.fileName, fileSize := m.fileSize, mimeType := m.mimeType }

/-- `Client.sendMessage`: default the message type, run the two
websocket-level checks, call the service (which appends the message), then
publish the room event to Redis.  On a store/validation failure nothing is
appended; on a publish failure the message stays appended but an error is
returned to the caller. -/
def clientSendMessage (env : Env) (c : ClientState) (m : WSMessage) :
    ClientState × Except String Unit :=
  if wsMsgType m = "text" ∧ m.content = "" then (c, Except.error "empty message")
  else if (wsMsgType m = "image" ∨ wsMsgType m = "file") ∧ m.fileURL = "" then
    (c, Except.error "file_url required for image/file messages")
  else
    match serviceSendMessage env c.id (wsReq c m) with
    | Except.error e => (c, Except.error e)
    | Except.ok msg =>
      let c1 := { c with appended := c.appended ++ [msg] }
      if env.publishOk then ({ c1 with published := c1.published ++ [msg] }, Except.ok ())
      else (c1, Except.error "redis publish failed")

/-! ## Dispatcher loop -/

/-- One inbound read-loop item: a decoded frame, or a `ReadJSON` failure
(malformed frame / closed peer), which breaks out of the loop. -/
inductive Inbound
| frame (m : WSMessage)
| malformed

def sendError (c : ClientState) (message : String) : ClientState :=
  { c with outbox := c.outbox ++ [OutMsg.err message] }

def sendSuccess (c : ClientState) (message : String) : ClientState :=
  { c with outbox := c.outbox ++ [OutMsg.success message] }

/-- The reader's exit path (the deferred block of the read loop): enqueue an
unregister when authenticated and in a room, then close the socket. -/
def exitLoop (c : ClientState) : ClientState :=
  let c1 := if c.id ≠ 0 ∧ c.roomId ≠ 0 then
    { c with hubLog := c.hubLog ++ [HubEv.unregister c.roomId] } else c
  { c1 with isOpen := false }

/-- One iteration of the read-loop switch (`readPump` /
`readPumpWithUserClient`).  A frame whose type matches no case is silently
ignored (the Go switch has no default case); a malformed frame exits the
loop. -/
def step (env : Env) (c : ClientState) (i : Inbound) : ClientState :=
  if c.isOpen = false then c
  else
    match i with
    | Inbound.malformed => exitLoop c
    | Inbound.frame m =>
      if m.ty = "auth" then
        match authC env c m.token with
        | (c1, true) => sendSuccess c1 "Authenticated successfully"
        | (c1, false) => exitLoop (sendError c1 "Authentication failed")
      else if m.ty = "join_room" then
        if c.id = 0 then sendError c "Please authenticate first"
        else
          match clientJoinRoom env c m.roomId with
          | (c1, Except.ok _) => c1
          | (c1, Except.error e) => sendError c1 ("Failed to join room: " ++ e)
      else if m.ty = "send_message" then
        if c.id = 0 ∨ c.roomId = 0 then sendError c "Please authenticate and join a room first"
        else
          match clientSendMessage env c m with
          | (c1, Except.ok _) => c1
          | (c1, Except.error e) => sendError c1 ("Failed to send message: " ++ e)
      else if m.ty = "leave_room" then
        if c.roomId ≠ 0 then
          sendSuccess { c with hubLog := c.hubLog ++ [HubEv.unregister c.roomId], roomId := 0 }
            "Left room"
        else c
      else if m.ty = "ping" then
        { c with outbox := c.outbox ++ [OutMsg.pong] }
      else c

/-- Processing a whole inbound sequence from a given state. -/
def run (env : Env) (c : ClientState) (inps : List Inbound) : ClientState :=
  inps.foldl (step env) c

/-! ## safeSend and the Redis fan-out (Hub.subscribeToRedis) -/

/-- Capacity of a client's send channel (`make(chan []byte, 256)`). -/
def sendQueueCap : Nat := 256

/-- The buffered send channel of one fan-out recipient, plus whether the
channel has been closed (a send on a closed channel panics and the recover
in `safeSend` turns that into a false return). -/
structure FanClient where
  queue : List String
  closed : Bool := false
deriving DecidableEq

/-- `Client.safeSend`: a non-blocking channel send.  When the buffer is
full, the message is dropped, the hub-wide dropped counter (and the
`dropped_messages_total` metric) is incremented, and false is returned;
a panic on a closed channel is recovered into a false return. -/
def safeSend (cl : FanClient) (dropped : Nat) (message : String) :
    FanClient × Nat × Bool :=
  if cl.closed then (cl, dropped, false)
  else if cl.queue.length < sendQueueCap then
    ({ cl with queue := cl.queue ++ [message] }, dropped, true)
  else (cl, dropped + 1, false)

/-- Hub-side state seen by the Redis subscriber loop: the registry, each
connection's send channel, and the dropped-message counter. -/
structure FanState where
  rooms : Rooms
  clients : ConnId → FanClient
  dropped : Nat

/-- One per-recipient enqueue of `Hub.subscribeToRedis`
(`go client.safeSend(msgBytes)`): the boolean result is discarded and no
other state is touched. -/
def deliverOne (s : FanState) (c : ConnId) (message : String) : FanState :=
  let r := safeSend (s.clients c) s.dropped message
  { s with clients := fun x => if x = c then r.1 else s.clients x, dropped := r.2.1 }

/-! ## Interleaved room-switch semantics (joinRoom vs Hub.Run)

`Client.joinRoom` runs on the reader goroutine and performs, in order:
send the client pointer on the unregister channel (only when already in a
room), write the shared `RoomID` field, send the pointer on the register
channel, enqueue the room_joined acknowledgement.  `Hub.Run` runs on its
own goroutine and dequeues from the two channels in arbitrary order
relative to the reader; each dequeued event carries only the pointer, and
the handler indexes `rooms` by the client's current `RoomID` field.  The
subscriber loop may interleave a fan-out at any point.  `switchConn` is the
one client under consideration. -/

def switchConn : ConnId := 0

/-- The reader's atomic actions inside a successful `joinRoom` (and the ack). -/
inductive ReaderAct
| enqUnreg
| setRoom (r : Int)
| enqReg
| ackJoined (r : Int)
deriving DecidableEq

/-- Interleaving state: the reader's remaining actions, the shared `RoomID`
field, how many events sit in each Hub channel, the registry, the sent
room_joined acks and the room ids of events fan-out has delivered (enqueued)
to `switchConn`. -/
structure AsyncState where
  prog : List ReaderAct
  connRoom : Int
  unregQ : Nat
  regQ : Nat
  rooms : Rooms
  acks : List Int
  delivered : List Int

/-- One interleaved step: a reader action, a Hub dequeue (which reads the
client's current `RoomID`), or a fan-out of a room event (delivered to
`switchConn` exactly when it is in that room's entry). -/
inductive AStep : AsyncState → AsyncState → Prop
| enqUnreg (s : AsyncState) (rest : List ReaderAct) (h : s.prog = ReaderAct.enqUnreg :: rest) :
    AStep s { s with prog := rest, unregQ := s.unregQ + 1 }
| setRoom (s : AsyncState) (r : Int) (rest : List ReaderAct)
    (h : s.prog = ReaderAct.setRoom r :: rest) :
    AStep s { s with prog := rest, connRoom := r }
| enqReg (s : AsyncState) (rest : List ReaderAct) (h : s.prog = ReaderAct.enqReg :: rest) :
    AStep s { s with prog := rest, regQ := s.regQ + 1 }
| ackJoined (s : AsyncState) (r : Int) (rest : List ReaderAct)
    (h : s.prog = ReaderAct.ackJoined r :: rest) :
    AStep s { s with prog := rest, acks := s.acks ++ [r] }
| hubUnreg (s : AsyncState) (h : 0 < s.unregQ) :
    AStep s { s with unregQ := s.unregQ - 1,
                     rooms := hubUnregister s.rooms switchConn s.connRoom }
| hubReg (s : AsyncState) (h : 0 < s.regQ) :
    AStep s { s with regQ := s.regQ - 1,
                     rooms := hubRegister s.rooms switchConn s.connRoom }
| fanOut (s : AsyncState) (r : Int) (h : memRoom s.rooms switchConn r) :
    AStep s { s with delivered := s.delivered ++ [r] }

/-- Reachability under interleaved steps. -/
def AReach : AsyncState → AsyncState → Prop := Relation.ReflTransGen AStep

/-- Fresh connection that will execute `joinRoom(9)` and then `joinRoom(11)`
(the second join starts with an unregister because the client is in room 9
when the reader evaluates `c.RoomID != 0`). -/
def sw0 : AsyncState :=
  { prog := [ReaderAct.setRoom 9, ReaderAct.enqReg, ReaderAct.ackJoined 9,
             ReaderAct.enqUnreg, ReaderAct.setRoom 11, ReaderAct.enqReg,
             ReaderAct.ackJoined 11],
    connRoom := 0, unregQ := 0, regQ := 0, rooms := emptyRooms, acks := [], delivered := [] }

def sw1 : AsyncState := { sw0 with
  prog := [ReaderAct.enqReg, ReaderAct.ackJoined 9, ReaderAct.enqUnreg,
           ReaderAct.setRoom 11, ReaderAct.enqReg, ReaderAct.ackJoined 11],
  connRoom := 9 }

def sw2 : AsyncState := { sw1 with
  prog := [ReaderAct.ackJoined 9, ReaderAct.enqUnreg, ReaderAct.setRoom 11,
           ReaderAct.enqReg, ReaderAct.ackJoined 11],
  regQ := 1 }

def sw3 : AsyncState := { sw2 with
  regQ := 0, rooms := hubRegister sw2.rooms switchConn 9 }

def sw4 : AsyncState := { sw3 with
  prog := [ReaderAct.enqUnreg, ReaderAct.setRoom 11, ReaderAct.enqReg,
           ReaderAct.ackJoined 11],
  acks := [9] }

def sw5 : AsyncState := { sw4 with
  prog := [ReaderAct.setRoom 11, ReaderAct.enqReg, ReaderAct.ackJoined 11],
  unregQ := 1 }

def sw6 : AsyncState := { sw5 with
  prog := [ReaderAct.enqReg, ReaderAct.ackJoined 11],
  connRoom := 11 }

def sw7 : AsyncState := { sw6 with
  prog := [ReaderAct.ackJoined 11],
  regQ := 1 }

/-- The Hub dequeues the unregister sent during `joinRoom(11)` only now;
`client.RoomID` is already 11, so the removal targets `rooms[11]` (absent)
and is a no-op: the client stays in `rooms[9]`. -/
def sw8 : AsyncState := { sw7 with
  unregQ := 0, rooms := hubUnregister sw7.rooms switchConn 11 }

def sw9 : AsyncState := { sw8 with
  regQ := 0, rooms := hubRegister sw8.rooms switchConn 11 }

def sw10 : AsyncState := { sw9 with
  prog := [], acks := [9, 11] }

def sw11 : AsyncState := { sw10 with delivered := [9] }

/-! ## Gateway file upload (HandleUpload) -/

/-- `storage.MaxFileSize` (10 MiB). -/
def MaxFileSize : Int := 10 * 1024 * 1024

/-- `storage.AllowedFileTypes` (the MIME allow-list for `/upload`). -/
def AllowedFileTypes : List String :=
  ["image/jpeg", "image/png", "image/gif", "image/webp", "application/pdf",
   "application/msword",
   "application/vnd.openxmlformats-officedocument.wordprocessingml.document",
   "application/vnd.ms-excel",
   "application/vnd.openxmlformats-officedocument.spreadsheetml.sheet",
   "application/zip", "text/plain", "application/json"]

/-- `storage.IsImage`: the MIME type starts with image/
(`strings.HasPrefix`, stated on the character lists). -/
def IsImage (mimeType : String) : Bool := "image/".data.isPrefixOf mimeType.data

/-- `storage.GetMessageType`: image for image MIME types, file otherwise. -/
def GetMessageType (mimeType : String) : String :=
  if IsImage mimeType then "image" else "file"

/-- Split a character list at the first space, keeping later spaces in the
second part. -/
def splitFirstSpace : List Char → Option (List Char × List Char)
  | [] => none
  | ch :: rest =>
    if ch = ' ' then some ([], rest)
    else
      match splitFirstSpace rest with
      | none => none
      | some (a, b) => some (ch :: a, b)

/-- `strings.SplitN(s, " ", 2)`: at most two parts, the second keeping any
further separators. -/
def splitN2 (s : String) : List String :=
  match splitFirstSpace s.data with
  | none => [s]
  | some (a, b) => [String.mk a, String.mk b]

/-- `authenticateUpload`: require an Authorization header of the form
Bearer token and validate the token through the User Service; returns the
validated user id. -/
def authenticateUpload (validate : String → Option (Int × String)) (authHeader : String) :
    Option Int :=
  if authHeader = "" then none
  else
    let parts := splitN2 authHeader
    if parts.length ≠ 2 ∨ parts.headD "" ≠ "Bearer" then none
    else
      match validate ((parts.getD 1 "")) with
      | none => none
      | some (userID, _) => some userID

/-- An `/upload` request: HTTP method, Authorization header, whether the
multipart form parsed and carried a file field, and that file's name,
declared size and Content-Type part header. -/
structure UploadRequest where
  method : String
  authHeader : String
  formOk : Bool
  hasFile : Bool
  fileName : String
  fileSize : Int
  contentTypeHeader : String

/-- The JSON body returned on success. -/
structure UploadResponse where
  fileURL : String
  fileName : String
  fileSize : Int
  mimeType : String
  messageType : String
deriving DecidableEq

/-- Outcome of `HandleUpload`: 204 for a CORS preflight, an error status
with message, or 200 with the response body. -/
inductive UploadResult
| noContent
| err (status : Nat) (message : String)
| ok (resp : UploadResponse)
deriving DecidableEq

/-- Collaborators of the upload handler: the token validator and the MinIO
client (`uploadOk` is whether `PutObject` succeeds, `uploadURL` the public
URL built for the stored object). -/
structure UploadEnv where
  validateToken : String → Option (Int × String)
  uploadOk : Bool
  uploadURL : String

/-- The MIME type `HandleUpload` works with: the file part's Content-Type
header, defaulted to application/octet-stream when empty. -/
def uploadMime (r : UploadRequest) : String :=
  if r.contentTypeHeader = "" then "application/octet-stream" else r.contentTypeHeader

/-- The response body `HandleUpload` builds on success: the stored object's
public URL with the file name, size and MIME type echoed back, and the
message type derived from the MIME prefix. -/
def uploadOkResp (env : UploadEnv) (r : UploadRequest) : UploadResponse :=
  { fileURL := env.uploadURL, fileName := r.fileName, fileSize := r.fileSize,
    mimeType := uploadMime r, messageType := GetMessageType (uploadMime r) }

/-- `HandleUpload`, returning the HTTP outcome and whether a store of the
object was attempted.  `MinioStorage.UploadFile` is inlined at its call
site: `HandleUpload` always passes a non-empty MIME type (it defaults the
header to application/octet-stream first), so `UploadFile` echoes the file
name, size and MIME type into the stored `FileInfo`. -/
def handleUpload (env : UploadEnv) (r : UploadRequest) : UploadResult × Bool :=
  if r.method = "OPTIONS" then (UploadResult.noContent, false)
  else if r.method ≠ "POST" then (UploadResult.err 405 "method not allowed", false)
  else
    match authenticateUpload env.validateToken r.authHeader with
    | none => (UploadResult.err 401 "unauthorized", false)
    | some _ =>
      if r.formOk = false then (UploadResult.err 400 "file too large or invalid form", false)
      else if r.hasFile = false then (UploadResult.err 400 "no file provided", false)
      else if MaxFileSize < r.fileSize then (UploadResult.err 400 "file too large", false)
      else if AllowedFileTypes.contains (uploadMime r) = false then
        (UploadResult.err 400 "file type not allowed", false)
      else if env.uploadOk = false then
        (UploadResult.err 500 "failed to upload file", true)
      else
        (UploadResult.ok (uploadOkResp env r), true)

/-! ## Specification predicates -/

/-- The Message invariant of the spec, as the claim states it: non-empty
content for text, non-empty file url and name for image / file, content at
most 4000 bytes. -/
def MessageOk (msg : Message) : Prop :=
  (msg.ty = "text" → msg.content ≠ "") ∧
  ((msg.ty = "image" ∨ msg.ty = "file") → msg.fileURL ≠ "" ∧ msg.fileName ≠ "") ∧
  msg.content.utf8ByteSize ≤ 4000

/-- The Message invariant evaluated on the message a send_message frame
would produce. -/
def ReqOk (m : WSMessage) : Prop :=
  (wsMsgType m = "text" → m.content ≠ "") ∧
  ((wsMsgType m = "image" ∨ wsMsgType m = "file") → m.fileURL ≠ "" ∧ m.fileName ≠ "") ∧
  m.content.utf8ByteSize ≤ 4000

/-- Auth-gate invariant: while the socket is open and no auth-success frame
has ever been sent, the session user id is still 0. -/
def AuthGateInv (c : ClientState) : Prop :=
  c.isOpen = true → OutMsg.success "Authenticated successfully" ∉ c.outbox → c.id = 0

/-- The user id the JWT path would leave in place after a (re-)auth:
the token's user_id claim when present, the previous id otherwise. -/
def jwtNewId (parse : String → JWTToken) (c : ClientState) (tok : String) : Int :=
  ((parse tok).userIdClaim).getD c.id

/-- The username the JWT path would leave in place after a (re-)auth. -/
def jwtNewName (parse : String → JWTToken) (c : ClientState) (tok : String) : String :=
  ((parse tok).usernameClaim).getD c.username

/-! ## Concrete instances used by witnesses and counterexamples -/

/-- A validator accepting every token as user 42 alice. -/
def validateW : String → Option (Int × String) := fun _ => some (42, "alice")

/-- Environment for witnesses: user-service auth, everyone a member of every
room, every room exists, store and publish succeed. -/
def envW : Env :=
  { backend := AuthBackend.userSvc validateW,
    isUserInRoom := fun _ _ => true,
    getRoomByID := fun _ => some (),
    getUser := fun _ => some "alice",
    storeOk := true, publishOk := true }

/-- Environment whose collaborators all refuse; used where the environment
is irrelevant. -/
def envStub : Env :=
  { backend := AuthBackend.userSvc (fun _ => none),
    isUserInRoom := fun _ _ => false,
    getRoomByID := fun _ => none,
    getUser := fun _ => none,
    storeOk := false, publishOk := false }

/-- An authenticated client sitting in room 9 (as after auth plus a
processed join), with the effect logs cleared for readability. -/
def reAuthState : ClientState :=
  { id := 42, username := "alice", roomId := 9, isOpen := true,
    outbox := [], hubLog := [], appended := [], published := [] }

/-- A JWT that parses and verifies but carries no user_id claim, only a
username claim. -/
def tokNoId : JWTToken :=
  { valid := true, userIdClaim := none, usernameClaim := some "eve" }

/-- JWT environment in which every token string parses to `tokNoId`. -/
def envJwtNoId : Env :=
  { backend := AuthBackend.jwt (fun _ => tokNoId),
    isUserInRoom := fun _ _ => true,
    getRoomByID := fun _ => some (),
    getUser := fun _ => some "alice",
    storeOk := true, publishOk := true }

/-- Registry holding exactly connection 0 in room 1. -/
def roomsC8 : Rooms := fun r => if r = 1 then some {0} else none

/-- Fan-out state: connection 0 is in room 9 and its send channel is full. -/
def fanFullState : FanState :=
  { rooms := fun r => if r = 9 then some {0} else none,
    clients := fun _ => { queue := List.replicate 256 "m", closed := false },
    dropped := 0 }

/-- A JWT carrying both identity claims (user 7, bob). -/
def parseFull : String → JWTToken :=
  fun _ => { valid := true, userIdClaim := some 7, usernameClaim := some "bob" }

/-- JWT environment in which every token parses to the full token above. -/
def envJwtFull : Env :=
  { backend := AuthBackend.jwt parseFull,
    isUserInRoom := fun _ _ => true,
    getRoomByID := fun _ => some (),
    getUser := fun _ => some "alice",
    storeOk := true, publishOk := true }

/-- Upload collaborators for witnesses: every token valid, storage up. -/
def uploadEnvW : UploadEnv :=
  { validateToken := validateW, uploadOk := true, uploadURL := "http://files/chat/x.png" }

/-- A well-formed upload request for a small PNG. -/
def uploadReqW : UploadRequest :=
  { method := "POST", authHeader := "Bearer T", formOk := true, hasFile := true,
    fileName := "cat.png", fileSize := 1024, contentTypeHeader := "image/png" }

/-- The response `handleUpload` produces for `uploadReqW`. -/
def uploadRespW : UploadResponse :=
  { fileURL := "http://files/chat/x.png", fileName := "cat.png", fileSize := 1024,
    mimeType := "image/png", messageType := "image" }

/-- The message the witness send_message pipeline appends. -/
def msgW : Message :=
  { roomId := 9, userId := 42, username := "alice", content := "hi", ty := "text",
    fileURL := "", fileName := "", fileSize := 0, mimeType := "" }

/-! ## Theorems -/

lemma exitLoop_isOpen (c : ClientState) : (exitLoop c).isOpen = false := rfl

lemma exitLoop_outbox (c : ClientState) : (exitLoop c).outbox = c.outbox := by
  unfold exitLoop
  split <;> rfl

lemma sendError_id (c : ClientState) (m : String) : (sendError c m).id = c.id := rfl

lemma sendError_outbox (c : ClientState) (m : String) :
    (sendError c m).outbox = c.outbox ++ [OutMsg.err m] := rfl

/-- C8 helper: `hubRegister` leaves entries of other rooms untouched. -/
lemma hubRegister_other (rooms : Rooms) (c : ConnId) (roomId r : Int) (h : r ≠ roomId) :
    hubRegister rooms c roomId r = rooms r := by
  unfold hubRegister
  exact if_neg h

/-- C8 helper: the entry of the registered room after `hubRegister`. -/
lemma hubRegister_self (rooms : Rooms) (c : ConnId) (roomId : Int) :
    hubRegister rooms c roomId roomId = some (insert c ((rooms roomId).getD ∅)) := by
  unfold hubRegister
  exact if_pos rfl

/-- C8: the register processed for a `join_room(R)` followed by the
unregister processed for the matching `leave_room` restores `Hub.rooms`
exactly, for every starting registry in which the connection is not already
in the `rooms[R]` entry and that entry is not a (never reachable) explicit
empty set.  In particular a `rooms[R]` key created by the join is deleted
again once it becomes empty. -/
theorem hub_join_leave_roundtrip (rooms : Rooms) (c : ConnId) (R : Int)
    (hnotin : c ∉ (rooms R).getD ∅) (hne : rooms R ≠ some (∅ : Finset ConnId)) :
    hubUnregister (hubRegister rooms c R) c R = rooms := by
  have hself := hubRegister_self rooms c R
  funext r
  unfold hubUnregister
  rw [hself]
  simp only [Finset.mem_insert_self, if_pos]
  rw [Finset.erase_insert hnotin]
  by_cases hr : r = R
  · subst hr
    cases hrr : rooms r with
    | none => simp [hrr]
    | some s =>
      have hs : s ≠ ∅ := by
        intro hse
        exact hne (by rw [hrr, hse])
      simp [hrr, hs]
  · simp only [if_neg hr]
    exact hubRegister_other rooms c R r hr

/-- C8 witness: concrete instance of the round trip from the empty registry. -/
theorem hub_join_leave_roundtrip_witness :
    hubUnregister (hubRegister emptyRooms 3 2) 3 2 = emptyRooms :=
  hub_join_leave_roundtrip emptyRooms 3 2 (by decide) (by decide)

/-- C8 counterexample: the claim quantifies over every starting state, but
when the connection already sits in `rooms[R]` the join is absorbed (a map
set is idempotent) while the leave removes the connection and deletes the
key, so the round trip does not restore the starting registry. -/
theorem hub_join_leave_roundtrip_cex :
    hubUnregister (hubRegister roomsC8 0 1) 0 1 ≠ roomsC8 := by
  intro h
  have h1 : hubUnregister (hubRegister roomsC8 0 1) 0 1 1 = roomsC8 1 := congrFun h 1
  have h2 : hubUnregister (hubRegister roomsC8 0 1) 0 1 1 ≠ roomsC8 1 := by decide
  exact h2 h1

/-! Interleaving trace for C3 / C4: the connection joins room 9, then joins
room 11; the Hub dequeues the unregister of the switch only after the
reader has already overwritten the shared `RoomID` field with 11. -/

lemma swStep01 : AStep sw0 sw1 := AStep.setRoom sw0 9 _ rfl

lemma swStep12 : AStep sw1 sw2 := AStep.enqReg sw1 _ rfl

lemma swStep23 : AStep sw2 sw3 := AStep.hubReg sw2 (by decide)

lemma swStep34 : AStep sw3 sw4 := AStep.ackJoined sw3 9 _ rfl

lemma swStep45 : AStep sw4 sw5 := AStep.enqUnreg sw4 _ rfl

lemma swStep56 : AStep sw5 sw6 := AStep.setRoom sw5 11 _ rfl

lemma swStep67 : AStep sw6 sw7 := AStep.enqReg sw6 _ rfl

lemma swStep78 : AStep sw7 sw8 := AStep.hubUnreg sw7 (by decide)

lemma swStep89 : AStep sw8 sw9 := AStep.hubReg sw8 (by decide)

lemma swStep910 : AStep sw9 sw10 := AStep.ackJoined sw9 11 _ rfl

lemma swStep1011 : AStep sw10 sw11 := AStep.fanOut sw10 9 (by decide)

lemma swReach10 : AReach sw0 sw10 :=
  Relation.ReflTransGen.head swStep01 (Relation.ReflTransGen.head swStep12
    (Relation.ReflTransGen.head swStep23 (Relation.ReflTransGen.head swStep34
      (Relation.ReflTransGen.head swStep45 (Relation.ReflTransGen.head swStep56
        (Relation.ReflTransGen.head swStep67 (Relation.ReflTransGen.head swStep78
          (Relation.ReflTransGen.head swStep89 (Relation.ReflTransGen.head swStep910
            Relation.ReflTransGen.refl)))))))))

/-- C3: the single-room invariant does not hold for every reachable state of
the interleaved joinRoom / Hub.Run semantics.  Starting from a fresh
connection, the schedule join(9); join(11) in which `Hub.Run` dequeues the
switch's unregister only after the reader has overwritten `RoomID` with 11
leaves the connection in both `rooms[9]` and `rooms[11]`: the unregister
handler indexes `rooms` by the client's current `RoomID` (11, absent), so
the removal from room 9 never happens, and the subsequent register inserts
into `rooms[11]`. -/
theorem single_room_invariant_violated :
    ¬ (∀ s : AsyncState, AReach sw0 s → ∀ r1 r2 : Int,
        memRoom s.rooms switchConn r1 → memRoom s.rooms switchConn r2 → r1 = r2) := by
  intro h
  have h9 : memRoom sw10.rooms switchConn 9 := by decide
  have h11 : memRoom sw10.rooms switchConn 11 := by decide
  have := h sw10 swReach10 9 11 h9 h11
  exact absurd this (by decide)

/-- C4: after the same schedule, the server has acknowledged
`room_joined{11}` (acks = [9, 11], nothing delivered yet), and a message
published to the old room 9 afterwards is still delivered (enqueued) to the
switched connection, because it was never removed from `rooms[9]`. -/
theorem stale_room_delivery_after_switch :
    ∃ s1 s2 : AsyncState, AReach sw0 s1 ∧ s1.acks = [9, 11] ∧ s1.delivered = [] ∧
      AReach s1 s2 ∧ s2.delivered = [9] :=
  ⟨sw10, sw11, swReach10, by decide, by decide,
    Relation.ReflTransGen.head swStep1011 Relation.ReflTransGen.refl, by decide⟩

/-- C6 (amended): when a fan-out enqueue finds the recipient's writeQueue
full, `safeSend` returns false without blocking and the dropped-message
counter is incremented by 1, but the Hub takes no further action: the
registry, every send queue and every closed flag are untouched — there is
no soft eviction on drop anywhere in the code. -/
theorem fanout_drop_no_eviction (s : FanState) (c : ConnId) (message : String)
    (hopen : (s.clients c).closed = false)
    (hfull : sendQueueCap ≤ (s.clients c).queue.length) :
    (safeSend (s.clients c) s.dropped message).2.2 = false ∧
    (deliverOne s c message).dropped = s.dropped + 1 ∧
    (deliverOne s c message).rooms = s.rooms ∧
    (∀ x, (deliverOne s c message).clients x = s.clients x) := by
  have hs : safeSend (s.clients c) s.dropped message = (s.clients c, s.dropped + 1, false) := by
    unfold safeSend
    rw [if_neg (by simp [hopen]), if_neg (by omega)]
  refine ⟨by rw [hs], ?_, ?_, ?_⟩
  · simp only [deliverOne, hs]
  · simp only [deliverOne, hs]
  · intro x
    simp only [deliverOne, hs]
    by_cases hx : x = c
    · subst hx; simp
    · simp [hx]

set_option maxRecDepth 4000 in
/-- C6 witness: a concrete full-queue recipient. -/
theorem fanout_drop_no_eviction_witness :
    (safeSend (fanFullState.clients 1) fanFullState.dropped "x").2.2 = false ∧
    (deliverOne fanFullState 1 "x").dropped = fanFullState.dropped + 1 ∧
    (deliverOne fanFullState 1 "x").rooms = fanFullState.rooms ∧
    (∀ x, (deliverOne fanFullState 1 "x").clients x = fanFullState.clients x) :=
  fanout_drop_no_eviction fanFullState 1 "x" (by decide) (by decide)

set_option maxRecDepth 4000 in
/-- C6 counterexample: after the drop the claim requires the Hub to
soft-evict the throttled connection, but in the model of the code the
connection is still in `rooms[9]`, its channel is not closed and its queue
is unchanged; only the counter moved. -/
theorem drop_without_eviction_cex :
    (safeSend (fanFullState.clients 0) fanFullState.dropped "hi").2.2 = false ∧
    (deliverOne fanFullState 0 "hi").dropped = 1 ∧
    memRoom (deliverOne fanFullState 0 "hi").rooms 0 9 ∧
    ((deliverOne fanFullState 0 "hi").clients 0).closed = false ∧
    ((deliverOne fanFullState 0 "hi").clients 0).queue = (fanFullState.clients 0).queue := by
  decide

lemma authC_shape (env : Env) (c : ClientState) (tok : String) :
    ∃ i u, (authC env c tok).1 = { c with id := i, username := u } := by
  unfold authC
  cases env.backend with
  | jwt parse =>
    unfold authenticateJWT
    by_cases h0 : tok = ""
    · exact ⟨c.id, c.username, by simp [h0]⟩
    · by_cases h1 : (parse tok).valid = false
      · exact ⟨c.id, c.username, by simp [h0, h1]⟩
      · refine ⟨jwtNewId parse c tok, jwtNewName parse c tok, ?_⟩
        simp only [if_neg h0, if_neg h1]
        cases hu : (parse tok).userIdClaim <;> cases hn : (parse tok).usernameClaim <;>
          simp only [jwtNewId, jwtNewName, hu, hn, Option.getD_some, Option.getD_none] <;>
          split <;> rfl
  | userSvc validate =>
    unfold authenticateWithUserClient
    by_cases h0 : tok = ""
    · exact ⟨c.id, c.username, by simp [h0]⟩
    · cases hv : validate tok with
      | none => exact ⟨c.id, c.username, by simp [h0, hv]⟩
      | some p =>
        by_cases hz : p.1 = 0
        · refine ⟨c.id, c.username, ?_⟩
          simp [h0, hv, hz]
        · refine ⟨p.1, p.2, ?_⟩
          simp [h0, hv, hz]

/-- C7 (amended): a frame with an unknown type is silently ignored (no
reply, connection kept alive and state unchanged); a malformed frame
terminates the connection without an error reply; an auth failure replies
with an error frame and terminates the connection. -/
theorem protocol_error_policy (env : Env) (c : ClientState) (m : WSMessage) (tok : String)
    (hopen : c.isOpen = true)
    (hunk : m.ty ≠ "auth" ∧ m.ty ≠ "join_room" ∧ m.ty ≠ "send_message" ∧
            m.ty ≠ "leave_room" ∧ m.ty ≠ "ping")
    (hfail : (authC env c tok).2 = false) :
    step env c (Inbound.frame m) = c ∧
    (step env c Inbound.malformed).isOpen = false ∧
    (step env c Inbound.malformed).outbox = c.outbox ∧
    (step env c (Inbound.frame { ty := "auth", token := tok })).isOpen = false ∧
    (step env c (Inbound.frame { ty := "auth", token := tok })).outbox
      = c.outbox ++ [OutMsg.err "Authentication failed"] := by
  obtain ⟨h1, h2, h3, h4, h5⟩ := hunk
  have hco : ¬ c.isOpen = false := by simp [hopen]
  refine ⟨?_, ?_, ?_, ?_, ?_⟩
  · simp [step, hco, h1, h2, h3, h4, h5]
  · simp [step, hco, exitLoop_isOpen]
  · simp [step, hco, exitLoop_outbox]
  · rcases hA : authC env c tok with ⟨c1, b⟩
    have hb : b = false := by rw [hA] at hfail; exact hfail
    subst hb
    simp [step, hco, hA, exitLoop_isOpen]
  · rcases hA : authC env c tok with ⟨c1, b⟩
    have hb : b = false := by rw [hA] at hfail; exact hfail
    subst hb
    obtain ⟨i, u, hc1⟩ := authC_shape env c tok
    rw [hA] at hc1
    have hc2 : c1 = { c with id := i, username := u } := hc1
    subst hc2
    simp [step, hco, hA, exitLoop_outbox, sendError_outbox]

/-- C7 witness: concrete unknown-type frame and failing auth. -/
theorem protocol_error_policy_witness :
    step envStub initClient (Inbound.frame { ty := "nonsense" }) = initClient ∧
    (step envStub initClient Inbound.malformed).isOpen = false ∧
    (step envStub initClient (Inbound.frame { ty := "auth", token := "T" })).isOpen = false := by
  have h := protocol_error_policy envStub initClient { ty := "nonsense" } "T" rfl
    (by refine ⟨?_, ?_, ?_, ?_, ?_⟩ <;> decide) (by decide)
  exact ⟨h.1, h.2.1, h.2.2.2.1⟩

set_option maxRecDepth 4000 in
/-- C7 counterexample: on a fresh connection, a frame of unknown type
produces no reply at all (the state, outbox included, is unchanged) even
though the connection stays open, and a malformed frame terminates the
connection without any error reply — contradicting the claim that both
client-protocol errors are answered with an error frame while the
connection stays alive. -/
theorem protocol_error_policy_cex :
    step envStub initClient (Inbound.frame { ty := "bogus" }) = initClient ∧
    (step envStub initClient Inbound.malformed).isOpen = false ∧
    (step envStub initClient Inbound.malformed).outbox = [] := by
  decide

/-- C9: with a valid bearer token on a well-formed POST multipart request,
an oversized file or a MIME type outside the allow-list is rejected with an
error and the object is never stored; otherwise the 200 response echoes the
file name, size, MIME type and the public URL of the stored object, and its
message_type is image exactly when the MIME type starts with image/ (file
otherwise). -/
theorem upload_contract (env : UploadEnv) (r : UploadRequest)
    (hmethod : r.method = "POST")
    (hauth : authenticateUpload env.validateToken r.authHeader ≠ none)
    (hform : r.formOk = true) (hfile : r.hasFile = true) :
    ((MaxFileSize < r.fileSize ∨ AllowedFileTypes.contains (uploadMime r) = false) →
      (handleUpload env r).2 = false ∧
      ∃ st msg, (handleUpload env r).1 = UploadResult.err st msg) ∧
    (∀ resp, (handleUpload env r).1 = UploadResult.ok resp →
      (handleUpload env r).2 = true ∧
      resp.fileURL = env.uploadURL ∧ resp.fileName = r.fileName ∧
      resp.fileSize = r.fileSize ∧ resp.mimeType = uploadMime r ∧
      resp.messageType = GetMessageType (uploadMime r) ∧
      (resp.messageType = "image" ↔ IsImage (uploadMime r) = true)) := by
  obtain ⟨uid, huid⟩ := Option.ne_none_iff_exists'.mp hauth
  have hO : ¬ r.method = "OPTIONS" := by rw [hmethod]; decide
  have hP : ¬ r.method ≠ "POST" := by rw [hmethod]; simp
  have hf1 : ¬ r.formOk = false := by simp [hform]
  have hf2 : ¬ r.hasFile = false := by simp [hfile]
  constructor
  · intro hrej
    by_cases hsz : MaxFileSize < r.fileSize
    · have hres : handleUpload env r = (UploadResult.err 400 "file too large", false) := by
        simp only [handleUpload, if_neg hO, if_neg hP, huid, if_neg hf1, if_neg hf2, if_pos hsz]
      rw [hres]
      exact ⟨rfl, 400, "file too large", rfl⟩
    · have hmime : AllowedFileTypes.contains (uploadMime r) = false := by
        rcases hrej with hrej | hrej
        · exact absurd hrej hsz
        · exact hrej
      have hres : handleUpload env r = (UploadResult.err 400 "file type not allowed", false) := by
        simp only [handleUpload, if_neg hO, if_neg hP, huid, if_neg hf1, if_neg hf2,
          if_neg hsz, hmime, eq_self_iff_true, if_true]
      rw [hres]
      exact ⟨rfl, 400, "file type not allowed", rfl⟩
  · intro resp hok
    by_cases hsz : MaxFileSize < r.fileSize
    · have hres : handleUpload env r = (UploadResult.err 400 "file too large", false) := by
        simp only [handleUpload, if_neg hO, if_neg hP, huid, if_neg hf1, if_neg hf2, if_pos hsz]
      rw [hres] at hok
      exact absurd hok (by simp)
    · by_cases hmime : AllowedFileTypes.contains (uploadMime r) = false
      · have hres : handleUpload env r
            = (UploadResult.err 400 "file type not allowed", false) := by
          simp only [handleUpload, if_neg hO, if_neg hP, huid, if_neg hf1, if_neg hf2,
            if_neg hsz, hmime, eq_self_iff_true, if_true]
        rw [hres] at hok
        exact absurd hok (by simp)
      · by_cases hup : env.uploadOk = false
        · have hres : handleUpload env r = (UploadResult.err 500 "failed to upload file", true) := by
            simp only [handleUpload, if_neg hO, if_neg hP, huid, if_neg hf1, if_neg hf2,
              if_neg hsz, if_neg hmime, if_pos hup]
          rw [hres] at hok
          exact absurd hok (by simp)
        · have hres : handleUpload env r = (UploadResult.ok (uploadOkResp env r), true) := by
            simp only [handleUpload, if_neg hO, if_neg hP, huid, if_neg hf1, if_neg hf2,
              if_neg hsz, if_neg hmime, if_neg hup]
          rw [hres] at hok
          have hok2 : uploadOkResp env r = resp := by injection hok
          subst hok2
          refine ⟨by rw [hres], rfl, rfl, rfl, rfl, rfl, ?_⟩
          show GetMessageType (uploadMime r) = "image" ↔ IsImage (uploadMime r) = true
          unfold GetMessageType
          by_cases hi : IsImage (uploadMime r) = true
          · simp [hi]
          · simp only [Bool.not_eq_true] at hi
            simp [hi]

lemma bool_ne_false {b : Bool} (h : ¬ b = false) : b = true := by
  cases b
  · exact absurd rfl h
  · rfl

lemma roomServiceGetRoom_ok (env : Env) (uid rid : Int)
    (h : roomServiceGetRoom env uid rid = Except.ok ()) :
    env.isUserInRoom rid uid = true := by
  unfold roomServiceGetRoom roomUseCaseGetRoom at h
  by_cases h1 : uid ≤ 0
  · rw [if_pos h1] at h
    exact absurd h (by simp)
  · rw [if_neg h1] at h
    by_cases h2 : env.isUserInRoom rid uid = false
    · rw [if_pos h2] at h
      exact absurd h (by simp)
    · exact bool_ne_false h2

lemma roomServiceGetRoom_notMember (env : Env) (uid rid : Int)
    (hm : env.isUserInRoom rid uid = false) :
    ∃ e, roomServiceGetRoom env uid rid = Except.error e := by
  unfold roomServiceGetRoom roomUseCaseGetRoom
  by_cases h1 : uid ≤ 0
  · exact ⟨"user not found", by rw [if_pos h1]⟩
  · rw [if_neg h1, if_pos hm]
    exact ⟨"access denied to room", rfl⟩

lemma validate_ok (req req1 : SendReq)
    (h : validateSendMessageRequest req = Except.ok req1) :
    req1 = { req with ty := if req.ty = "" then "text" else req.ty } ∧
    (req1.ty = "text" ∨ req1.ty = "image" ∨ req1.ty = "file") ∧
    ((req1.ty = "image" ∨ req1.ty = "file") → req.fileURL ≠ "" ∧ req.fileName ≠ "") ∧
    (req1.ty = "text" → req.content ≠ "") ∧
    req.content.utf8ByteSize ≤ 4000 := by
  simp only [validateSendMessageRequest] at h
  by_cases h0 : req.roomId ≤ 0
  · rw [if_pos h0] at h
    exact absurd h (by simp)
  · rw [if_neg h0] at h
    set ty := if req.ty = "" then "text" else req.ty with hty
    by_cases h1 : ¬ (ty = "text" ∨ ty = "image" ∨ ty = "file")
    · rw [if_pos h1] at h
      exact absurd h (by simp)
    · rw [if_neg h1] at h
      rw [not_not] at h1
      by_cases h2 : ty = "image" ∨ ty = "file"
      · rw [if_pos h2] at h
        by_cases h3 : req.fileURL = ""
        · rw [if_pos h3] at h
          exact absurd h (by simp)
        · rw [if_neg h3] at h
          by_cases h4 : req.fileName = ""
          · rw [if_pos h4] at h
            exact absurd h (by simp)
          · rw [if_neg h4] at h
            by_cases h5 : 4000 < req.content.utf8ByteSize
            · rw [if_pos h5] at h
              exact absurd h (by simp)
            · rw [if_neg h5] at h
              have hr : ({ req with ty := ty } : SendReq) = req1 := by injection h
              subst hr
              refine ⟨rfl, h1, fun _ => ⟨h3, h4⟩, ?_, Nat.not_lt.mp h5⟩
              intro htext
              have h6 : ty = "text" := htext
              rcases h2 with h2 | h2 <;> rw [h6] at h2 <;> exact absurd h2 (by decide)
      · rw [if_neg h2] at h
        by_cases h3 : req.content = ""
        · rw [if_pos h3] at h
          exact absurd h (by simp)
        · rw [if_neg h3] at h
          by_cases h4 : 4000 < req.content.utf8ByteSize
          · rw [if_pos h4] at h
            exact absurd h (by simp)
          · rw [if_neg h4] at h
            have hr : ({ req with ty := ty } : SendReq) = req1 := by injection h
            subst hr
            exact ⟨rfl, h1, fun himg => absurd himg h2, fun _ => h3, Nat.not_lt.mp h4⟩

lemma bizSendMessage_shape (env : Env) (uid : Int) (req : SendReq) (msg : Message)
    (h : bizSendMessage env uid req = Except.ok msg) :
    ∃ req1, validateSendMessageRequest req = Except.ok req1 ∧
      env.isUserInRoom req1.roomId uid = true ∧
      msg.roomId = req1.roomId ∧ msg.content = req1.content ∧ msg.ty = req1.ty ∧
      msg.fileURL = req1.fileURL ∧ msg.fileName = req1.fileName := by
  unfold bizSendMessage at h
  cases hv : validateSendMessageRequest req with
  | error e =>
    rw [hv] at h
    exact absurd h (by simp)
  | ok req1 =>
    rw [hv] at h
    dsimp only at h
    by_cases hm : env.isUserInRoom req1.roomId uid = false
    · rw [if_pos hm] at h
      exact absurd h (by simp)
    · rw [if_neg hm] at h
      cases hu : env.getUser uid with
      | none =>
        rw [hu] at h
        exact absurd h (by simp)
      | some uname =>
        rw [hu] at h
        dsimp only at h
        by_cases hs : env.storeOk = true
        · rw [if_pos hs] at h
          have hmsg :
              ({ roomId := req1.roomId, userId := uid, username := uname,
                 content := req1.content, ty := req1.ty, fileURL := req1.fileURL,
                 fileName := req1.fileName, fileSize := req1.fileSize,
                 mimeType := req1.mimeType } : Message) = msg := by injection h
          subst hmsg
          exact ⟨req1, rfl, bool_ne_false hm, rfl, rfl, rfl, rfl, rfl⟩
        · rw [if_neg hs] at h
          exact absurd h (by simp)

lemma bizSendMessage_notMember (env : Env) (uid : Int) (req : SendReq)
    (hm : env.isUserInRoom req.roomId uid = false) :
    ∃ e, bizSendMessage env uid req = Except.error e := by
  unfold bizSendMessage
  cases hv : validateSendMessageRequest req with
  | error e => exact ⟨e, rfl⟩
  | ok req1 =>
    have hr : req1.roomId = req.roomId := by
      rw [(validate_ok req req1 hv).1]
    have hm1 : env.isUserInRoom req1.roomId uid = false := by rw [hr]; exact hm
    refine ⟨"cannot send message to this room", ?_⟩
    dsimp only
    rw [if_pos hm1]

/-- C2: for every `join_room(R)` the pipeline accepts (room_joined sent)
and every `send_message` it accepts (message appended and published),
`RoomRepo.IsUserInRoom` was observed true for that user and room within the
handling of that same frame; when the membership predicate is false the
pipeline returns an error (which the dispatcher sends as an error frame)
and leaves the state untouched: no register event is enqueued and no
message is appended. -/
theorem membership_gate (env : Env) (c : ClientState) (m : WSMessage) (roomID : Int) :
    ((clientJoinRoom env c roomID).2 = Except.ok () → env.isUserInRoom roomID c.id = true) ∧
    ((clientSendMessage env c m).2 = Except.ok () → env.isUserInRoom c.roomId c.id = true) ∧
    (env.isUserInRoom roomID c.id = false →
      (clientJoinRoom env c roomID).1 = c ∧
      ∃ e, (clientJoinRoom env c roomID).2 = Except.error e) ∧
    (env.isUserInRoom c.roomId c.id = false →
      (clientSendMessage env c m).1 = c ∧
      ∃ e, (clientSendMessage env c m).2 = Except.error e) := by
  refine ⟨?_, ?_, ?_, ?_⟩
  · intro h
    unfold clientJoinRoom at h
    by_cases h0 : roomID ≤ 0
    · rw [if_pos h0] at h
      exact absurd h (by simp)
    · rw [if_neg h0] at h
      cases hg : roomServiceGetRoom env c.id roomID with
      | error e =>
        rw [hg] at h
        exact absurd h (by simp)
      | ok u =>
        exact roomServiceGetRoom_ok env c.id roomID hg
  · intro h
    unfold clientSendMessage at h
    by_cases h1 : wsMsgType m = "text" ∧ m.content = ""
    · rw [if_pos h1] at h
      exact absurd h (by simp)
    · rw [if_neg h1] at h
      by_cases h2 : (wsMsgType m = "image" ∨ wsMsgType m = "file") ∧ m.fileURL = ""
      · rw [if_pos h2] at h
        exact absurd h (by simp)
      · rw [if_neg h2] at h
        cases hs : serviceSendMessage env c.id (wsReq c m) with
        | error e =>
          rw [hs] at h
          exact absurd h (by simp)
        | ok msg =>
          unfold serviceSendMessage at hs
          by_cases h3 : c.id ≤ 0
          · rw [if_pos h3] at hs
            exact absurd hs (by simp)
          · rw [if_neg h3] at hs
            obtain ⟨req1, hv, hmem, -⟩ := bizSendMessage_shape env c.id (wsReq c m) msg hs
            have hr : req1.roomId = c.roomId := by
              rw [(validate_ok (wsReq c m) req1 hv).1]
              rfl
            rw [hr] at hmem
            exact hmem
  · intro hm
    unfold clientJoinRoom
    by_cases h0 : roomID ≤ 0
    · rw [if_pos h0]
      exact ⟨rfl, "invalid room ID", rfl⟩
    · rw [if_neg h0]
      obtain ⟨e, hg⟩ := roomServiceGetRoom_notMember env c.id roomID hm
      rw [hg]
      exact ⟨rfl, "cannot access room: " ++ e, rfl⟩
  · intro hm
    unfold clientSendMessage
    by_cases h1 : wsMsgType m = "text" ∧ m.content = ""
    · rw [if_pos h1]
      exact ⟨rfl, "empty message", rfl⟩
    · rw [if_neg h1]
      by_cases h2 : (wsMsgType m = "image" ∨ wsMsgType m = "file") ∧ m.fileURL = ""
      · rw [if_pos h2]
        exact ⟨rfl, "file_url required for image/file messages", rfl⟩
      · rw [if_neg h2]
        have hserr : ∃ e, serviceSendMessage env c.id (wsReq c m) = Except.error e := by
          unfold serviceSendMessage
          by_cases h3 : c.id ≤ 0
          · exact ⟨"user not found", by rw [if_pos h3]⟩
          · rw [if_neg h3]
            exact bizSendMessage_notMember env c.id (wsReq c m) hm
        obtain ⟨e, hs⟩ := hserr
        rw [hs]
        exact ⟨rfl, e, rfl⟩

lemma wsMsgType_ne_empty (m : WSMessage) : wsMsgType m ≠ "" := by
  unfold wsMsgType
  by_cases h : m.messageType = ""
  · rw [if_pos h]
    decide
  · rw [if_neg h]
    exact h

lemma serviceSendMessage_shape (env : Env) (c : ClientState) (m : WSMessage) (msg : Message)
    (h : serviceSendMessage env c.id (wsReq c m) = Except.ok msg) :
    ReqOk m ∧ MessageOk msg := by
  unfold serviceSendMessage at h
  by_cases h0 : c.id ≤ 0
  · rw [if_pos h0] at h
    exact absurd h (by simp)
  · rw [if_neg h0] at h
    obtain ⟨req1, hv, hmem, hrm, hc, hty, hurl, hname⟩ :=
      bizSendMessage_shape env c.id (wsReq c m) msg h
    obtain ⟨hreq1, htriple, himg, htext, hlen⟩ := validate_ok (wsReq c m) req1 hv
    have hne : (wsReq c m).ty ≠ "" := wsMsgType_ne_empty m
    have hty1 : req1.ty = wsMsgType m := by
      rw [hreq1]
      show (if (wsReq c m).ty = "" then "text" else (wsReq c m).ty) = wsMsgType m
      rw [if_neg hne]
      rfl
    have hcc : req1.content = m.content := by rw [hreq1]; rfl
    have huu : req1.fileURL = m.fileURL := by rw [hreq1]; rfl
    have hnn : req1.fileName = m.fileName := by rw [hreq1]; rfl
    constructor
    · refine ⟨?_, ?_, ?_⟩
      · intro ht
        exact htext (by rw [hty1]; exact ht)
      · intro hif
        exact himg (by rw [hty1]; exact hif)
      · exact hlen
    · refine ⟨?_, ?_, ?_⟩
      · intro ht
        have h4 : req1.ty = "text" := by rw [← hty]; exact ht
        rw [hc, hcc]
        exact htext h4
      · intro hif
        have h4 : req1.ty = "image" ∨ req1.ty = "file" := by rw [← hty]; exact hif
        rw [hurl, huu, hname, hnn]
        exact himg h4
      · rw [hc, hcc]
        exact hlen

/-- C5: a send_message request appends a message only if that message
satisfies the Message invariant (non-empty content for text, non-empty file
url and file name for image / file, content at most 4000 bytes); a request
whose derived message violates the invariant is rejected with an error and
appends nothing. -/
theorem message_invariant_gate (env : Env) (c : ClientState) (m : WSMessage) :
    (∀ msg, msg ∈ (clientSendMessage env c m).1.appended →
      msg ∈ c.appended ∨ MessageOk msg) ∧
    (¬ ReqOk m →
      (clientSendMessage env c m).1.appended = c.appended ∧
      ∃ e, (clientSendMessage env c m).2 = Except.error e) := by
  constructor
  · intro msg hmem
    unfold clientSendMessage at hmem
    by_cases h1 : wsMsgType m = "text" ∧ m.content = ""
    · rw [if_pos h1] at hmem
      exact Or.inl hmem
    · rw [if_neg h1] at hmem
      by_cases h2 : (wsMsgType m = "image" ∨ wsMsgType m = "file") ∧ m.fileURL = ""
      · rw [if_pos h2] at hmem
        exact Or.inl hmem
      · rw [if_neg h2] at hmem
        cases hs : serviceSendMessage env c.id (wsReq c m) with
        | error e =>
          rw [hs] at hmem
          exact Or.inl hmem
        | ok msg0 =>
          rw [hs] at hmem
          dsimp only at hmem
          have hap : msg ∈ c.appended ++ [msg0] := by
            by_cases hp : env.publishOk = true
            · rw [if_pos hp] at hmem
              exact hmem
            · rw [if_neg hp] at hmem
              exact hmem
          rcases List.mem_append.mp hap with hin | hin
          · exact Or.inl hin
          · rw [List.mem_singleton.mp hin]
            exact Or.inr (serviceSendMessage_shape env c m msg0 hs).2
  · intro hno
    unfold clientSendMessage
    by_cases h1 : wsMsgType m = "text" ∧ m.content = ""
    · rw [if_pos h1]
      exact ⟨rfl, "empty message", rfl⟩
    · rw [if_neg h1]
      by_cases h2 : (wsMsgType m = "image" ∨ wsMsgType m = "file") ∧ m.fileURL = ""
      · rw [if_pos h2]
        exact ⟨rfl, "file_url required for image/file messages", rfl⟩
      · rw [if_neg h2]
        cases hs : serviceSendMessage env c.id (wsReq c m) with
        | error e => exact ⟨rfl, e, rfl⟩
        | ok msg0 =>
          exact absurd (serviceSendMessage_shape env c m msg0 hs).1 hno

/-- C5 witness: a valid text message is appended and satisfies the
invariant; a text frame with empty content is rejected and appends
nothing. -/
theorem message_invariant_gate_witness :
    MessageOk msgW ∧
    (clientSendMessage envW reAuthState { ty := "send_message", messageType := "text" }).1.appended
      = reAuthState.appended := by
  have h1 := message_invariant_gate envW reAuthState
    { ty := "send_message", content := "hi" }
  have h2 := message_invariant_gate envW reAuthState
    { ty := "send_message", messageType := "text" }
  refine ⟨?_, ?_⟩
  · have hm := h1.1 msgW (by decide)
    exact hm.resolve_left (by decide)
  · exact (h2.2 (fun h => (h.1 rfl) rfl)).1

/-- C2 witness: an accepted concrete join implies an observed membership,
and a denied membership yields a concrete error with untouched state. -/
theorem membership_gate_witness :
    envW.isUserInRoom 9 42 = true ∧
    (clientJoinRoom envStub reAuthState 9).1 = reAuthState := by
  have h1 := membership_gate envW reAuthState { ty := "send_message" } 9
  have h2 := membership_gate envStub reAuthState { ty := "send_message" } 9
  exact ⟨h1.1 rfl, (h2.2.2.1 (by decide)).1⟩

lemma authenticateJWT_eval (p : String → JWTToken) (c : ClientState) (tok : String)
    (htok : ¬ tok = "") (hv : ¬ (p tok).valid = false) :
    authenticateJWT p c tok =
      (if jwtNewId p c tok = 0 ∨ jwtNewName p c tok = ""
       then ({ c with id := jwtNewId p c tok, username := jwtNewName p c tok }, false)
       else ({ c with id := jwtNewId p c tok, username := jwtNewName p c tok }, true)) := by
  unfold authenticateJWT
  rw [if_neg htok, if_neg hv]
  cases hu : (p tok).userIdClaim <;> cases hn : (p tok).usernameClaim <;>
    simp only [jwtNewId, jwtNewName, hu, hn, Option.getD_none, Option.getD_some]

/-- C10 (amended): an auth frame on an already-authenticated open
connection is neither ignored nor rejected as a wrong-state error — the
token is validated again.  JWT path: on success the identity claims present
in the token overwrite userId / username while an absent claim retains the
previous value, a success frame is sent and the rest of the state
(currentRoomId included) is unchanged; on any failure an error frame is
sent and the connection terminates.  User-Service path: on success both
fields are always overwritten by the validated identity; a validation
failure sends an error frame and terminates. -/
theorem reauth_revalidates (p : String → JWTToken) (v : String → Option (Int × String))
    (envJ envU : Env) (c : ClientState) (tok : String)
    (hJ : envJ.backend = AuthBackend.jwt p) (hU : envU.backend = AuthBackend.userSvc v)
    (hopen : c.isOpen = true) (htok : tok ≠ "") :
    ((p tok).valid = true → jwtNewId p c tok ≠ 0 → jwtNewName p c tok ≠ "" →
      step envJ c (Inbound.frame { ty := "auth", token := tok })
        = { c with id := jwtNewId p c tok, username := jwtNewName p c tok,
                   outbox := c.outbox ++ [OutMsg.success "Authenticated successfully"] }) ∧
    (((p tok).valid = false ∨ jwtNewId p c tok = 0 ∨ jwtNewName p c tok = "") →
      (step envJ c (Inbound.frame { ty := "auth", token := tok })).isOpen = false ∧
      (step envJ c (Inbound.frame { ty := "auth", token := tok })).outbox
        = c.outbox ++ [OutMsg.err "Authentication failed"]) ∧
    (∀ u n, v tok = some (u, n) → u ≠ 0 →
      step envU c (Inbound.frame { ty := "auth", token := tok })
        = { c with id := u, username := n,
                   outbox := c.outbox ++ [OutMsg.success "Authenticated successfully"] }) ∧
    (v tok = none →
      (step envU c (Inbound.frame { ty := "auth", token := tok })).isOpen = false ∧
      (step envU c (Inbound.frame { ty := "auth", token := tok })).outbox
        = c.outbox ++ [OutMsg.err "Authentication failed"]) := by
  have hco : ¬ c.isOpen = false := by simp [hopen]
  have hauthJ : authC envJ c tok = authenticateJWT p c tok := by
    unfold authC
    rw [hJ]
  have hauthU : authC envU c tok = authenticateWithUserClient v c tok := by
    unfold authC
    rw [hU]
  refine ⟨?_, ?_, ?_, ?_⟩
  · intro hv hid hn
    have hA : authC envJ c tok
        = ({ c with id := jwtNewId p c tok, username := jwtNewName p c tok }, true) := by
      rw [hauthJ, authenticateJWT_eval p c tok htok (by simp [hv])]
      rw [if_neg (by rw [not_or]; exact ⟨hid, hn⟩)]
    simp [step, hco, hA, sendSuccess]
  · intro hfail
    have hA : ∃ c1 : ClientState, c1.outbox = c.outbox ∧
        authC envJ c tok = (c1, false) := by
      by_cases hv : (p tok).valid = false
      · refine ⟨c, rfl, ?_⟩
        rw [hauthJ]
        unfold authenticateJWT
        rw [if_neg htok, if_pos hv]
      · have hrest : jwtNewId p c tok = 0 ∨ jwtNewName p c tok = "" := by
          rcases hfail with h | h
          · exact absurd h (by simp [Bool.not_eq_false] at hv; simp [hv])
          · exact h
        refine ⟨{ c with id := jwtNewId p c tok, username := jwtNewName p c tok }, rfl, ?_⟩
        rw [hauthJ, authenticateJWT_eval p c tok htok hv, if_pos hrest]
    obtain ⟨c1, hout, hA⟩ := hA
    constructor
    · simp [step, hco, hA, exitLoop_isOpen]
    · simp [step, hco, hA, exitLoop_outbox, sendError_outbox, hout]
  · intro u n hvtok hu
    have hA : authC envU c tok = ({ c with id := u, username := n }, true) := by
      rw [hauthU]
      unfold authenticateWithUserClient
      rw [if_neg htok, hvtok]
      dsimp only
      rw [if_neg hu]
    simp [step, hco, hA, sendSuccess]
  · intro hvtok
    have hA : authC envU c tok = (c, false) := by
      rw [hauthU]
      unfold authenticateWithUserClient
      rw [if_neg htok, hvtok]
    constructor
    · simp [step, hco, hA, exitLoop_isOpen]
    · simp [step, hco, hA, exitLoop_outbox, sendError_outbox]

/-- C10 witness: re-auth on an authenticated connection in room 9 with a
token carrying both claims (user 7, bob) overwrites the identity, sends a
success frame and leaves the room untouched. -/
theorem reauth_revalidates_witness :
    step envJwtFull reAuthState (Inbound.frame { ty := "auth", token := "T" })
      = { reAuthState with
          id := 7, username := "bob",
          outbox := [OutMsg.success "Authenticated successfully"] } := by
  have h := reauth_revalidates parseFull validateW envJwtFull envW reAuthState "T"
    rfl rfl rfl (by decide)
  exact h.1 rfl (by decide) (by decide)

/-- C10 counterexample: the claim says that on a successful re-auth the
userId and username are overwritten with the new identity carried by the
token.  On the JWT path, a token that parses and verifies but carries no
user_id claim is accepted on an already-authenticated connection: a success
frame is sent, yet userId keeps its previous value 42 (the token names no
user at all, only the username claim eve is applied). -/
theorem reauth_revalidates_cex :
    (step envJwtNoId reAuthState (Inbound.frame { ty := "auth", token := "T" })).outbox
      = [OutMsg.success "Authenticated successfully"] ∧
    (step envJwtNoId reAuthState (Inbound.frame { ty := "auth", token := "T" })).id = 42 ∧
    (step envJwtNoId reAuthState (Inbound.frame { ty := "auth", token := "T" })).username
      = "eve" ∧
    tokNoId.userIdClaim = none ∧ reAuthState.id = 42 := by
  decide

/-! C1: auth gate.  `AuthGateInv` (user id still 0 while the socket is open
and no auth-success frame was ever sent) is preserved by every dispatcher
step, so a join_room or send_message processed before any successful auth
is rejected with an error frame and changes nothing. -/

lemma clientJoinRoom_parts (env : Env) (c : ClientState) (rid : Int) :
    (clientJoinRoom env c rid).1.id = c.id ∧
    ∃ t, (clientJoinRoom env c rid).1.outbox = c.outbox ++ t := by
  unfold clientJoinRoom
  by_cases h0 : rid ≤ 0
  · rw [if_pos h0]
    exact ⟨rfl, [], by simp⟩
  · rw [if_neg h0]
    cases hg : roomServiceGetRoom env c.id rid with
    | error e => exact ⟨rfl, [], by simp⟩
    | ok u =>
      dsimp only
      by_cases hr : c.roomId ≠ 0
      · rw [if_pos hr]
        exact ⟨rfl, [OutMsg.roomJoined rid], rfl⟩
      · rw [if_neg hr]
        exact ⟨rfl, [OutMsg.roomJoined rid], rfl⟩

lemma clientSendMessage_parts (env : Env) (c : ClientState) (m : WSMessage) :
    (clientSendMessage env c m).1.id = c.id ∧
    ∃ t, (clientSendMessage env c m).1.outbox = c.outbox ++ t := by
  unfold clientSendMessage
  by_cases h1 : wsMsgType m = "text" ∧ m.content = ""
  · rw [if_pos h1]
    exact ⟨rfl, [], by simp⟩
  · rw [if_neg h1]
    by_cases h2 : (wsMsgType m = "image" ∨ wsMsgType m = "file") ∧ m.fileURL = ""
    · rw [if_pos h2]
      exact ⟨rfl, [], by simp⟩
    · rw [if_neg h2]
      cases hs : serviceSendMessage env c.id (wsReq c m) with
      | error e => exact ⟨rfl, [], by simp⟩
      | ok msg0 =>
        dsimp only
        by_cases hp : env.publishOk = true
        · rw [if_pos hp]
          exact ⟨rfl, [], by simp⟩
        · rw [if_neg hp]
          exact ⟨rfl, [], by simp⟩

lemma step_master (env : Env) (c : ClientState) (i : Inbound) :
    step env c i = c ∨
    (step env c i).isOpen = false ∨
    OutMsg.success "Authenticated successfully" ∈ (step env c i).outbox ∨
    ((step env c i).id = c.id ∧ c.isOpen = true ∧
      ∃ t, (step env c i).outbox = c.outbox ++ t) := by
  by_cases hco : c.isOpen = false
  · exact Or.inl (by simp [step, hco])
  · have hcopen : c.isOpen = true := bool_ne_false hco
    cases i with
    | malformed =>
      exact Or.inr (Or.inl (by simp [step, hco, exitLoop_isOpen]))
    | frame m =>
      by_cases ht1 : m.ty = "auth"
      · rcases hA : authC env c m.token with ⟨c1, b⟩
        cases b
        · exact Or.inr (Or.inl (by simp [step, hco, ht1, hA, exitLoop_isOpen]))
        · refine Or.inr (Or.inr (Or.inl ?_))
          simp [step, hco, ht1, hA, sendSuccess]
      · by_cases ht2 : m.ty = "join_room"
        · by_cases hid : c.id = 0
          · refine Or.inr (Or.inr (Or.inr
              ⟨?_, hcopen, [OutMsg.err "Please authenticate first"], ?_⟩))
            · simp [step, hco, ht1, ht2, hid, sendError]
            · simp [step, hco, ht1, ht2, hid, sendError]
          · rcases hJ : clientJoinRoom env c m.roomId with ⟨c1, r⟩
            have hp := clientJoinRoom_parts env c m.roomId
            rw [hJ] at hp
            obtain ⟨hpid, t, hout⟩ := hp
            cases r with
            | ok u =>
              refine Or.inr (Or.inr (Or.inr ⟨?_, hcopen, t, ?_⟩))
              · simp [step, hco, ht1, ht2, hid, hJ]
                exact hpid
              · simp [step, hco, ht1, ht2, hid, hJ]
                exact hout
            | error e =>
              refine Or.inr (Or.inr (Or.inr
                ⟨?_, hcopen, t ++ [OutMsg.err ("Failed to join room: " ++ e)], ?_⟩))
              · simp [step, hco, ht1, ht2, hid, hJ, sendError]
                exact hpid
              · simp [step, hco, ht1, ht2, hid, hJ, sendError]
                rw [hout, List.append_assoc]
        · by_cases ht3 : m.ty = "send_message"
          · by_cases hid : c.id = 0 ∨ c.roomId = 0
            · refine Or.inr (Or.inr (Or.inr
                ⟨?_, hcopen, [OutMsg.err "Please authenticate and join a room first"], ?_⟩))
              · simp [step, hco, ht1, ht2, ht3, hid, sendError]
              · simp [step, hco, ht1, ht2, ht3, hid, sendError]
            · rcases hS : clientSendMessage env c m with ⟨c1, r⟩
              have hp := clientSendMessage_parts env c m
              rw [hS] at hp
              obtain ⟨hpid, t, hout⟩ := hp
              cases r with
              | ok u =>
                refine Or.inr (Or.inr (Or.inr ⟨?_, hcopen, t, ?_⟩))
                · simp [step, hco, ht1, ht2, ht3, hid, hS]
                  exact hpid
                · simp [step, hco, ht1, ht2, ht3, hid, hS]
                  exact hout
              | error e =>
                refine Or.inr (Or.inr (Or.inr
                  ⟨?_, hcopen, t ++ [OutMsg.err ("Failed to send message: " ++ e)], ?_⟩))
                · simp [step, hco, ht1, ht2, ht3, hid, hS, sendError]
                  exact hpid
                · simp [step, hco, ht1, ht2, ht3, hid, hS, sendError]
                  rw [hout, List.append_assoc]
          · by_cases ht4 : m.ty = "leave_room"
            · by_cases hlr : c.roomId ≠ 0
              · refine Or.inr (Or.inr (Or.inr
                  ⟨?_, hcopen, [OutMsg.success "Left room"], ?_⟩))
                · simp [step, hco, ht1, ht2, ht3, ht4, hlr, sendSuccess]
                · simp [step, hco, ht1, ht2, ht3, ht4, hlr, sendSuccess]
              · exact Or.inl (by simp [step, hco, ht1, ht2, ht3, ht4, hlr])
            · by_cases ht5 : m.ty = "ping"
              · refine Or.inr (Or.inr (Or.inr ⟨?_, hcopen, [OutMsg.pong], ?_⟩))
                · simp [step, hco, ht1, ht2, ht3, ht4, ht5]
                · simp [step, hco, ht1, ht2, ht3, ht4, ht5]
              · exact Or.inl (by simp [step, hco, ht1, ht2, ht3, ht4, ht5])

lemma step_preserves_inv (env : Env) (c : ClientState) (i : Inbound)
    (hInv : AuthGateInv c) : AuthGateInv (step env c i) := by
  intro hopen hns
  rcases step_master env c i with h | h | h | ⟨hid, hcopen, t, hout⟩
  · rw [h] at hopen hns ⊢
    exact hInv hopen hns
  · rw [h] at hopen
    exact absurd hopen (by decide)
  · exact absurd h hns
  · rw [hid]
    refine hInv hcopen (fun hmem => hns ?_)
    rw [hout]
    exact List.mem_append.mpr (Or.inl hmem)

lemma run_inv (env : Env) (inps : List Inbound) :
    ∀ c : ClientState, AuthGateInv c → AuthGateInv (run env c inps) := by
  induction inps with
  | nil => exact fun c h => h
  | cons i t ih => exact fun c h => ih (step env c i) (step_preserves_inv env c i h)

/-- C1: any join_room or send_message frame processed while the connection
is still open and no auth-success frame has ever been sent (hence before
any successful auth) is rejected: the session state (userId, currentRoomId)
is unchanged, no hub register/unregister event is enqueued (so `Hub.rooms`
is untouched), nothing is appended, the socket stays open, and the reply is
exactly the error frame "Please authenticate first" for join_room
(resp. "Please authenticate and join a room first" for send_message). -/
theorem auth_gate (env : Env) (inps : List Inbound) (m : WSMessage)
    (hty : m.ty = "join_room" ∨ m.ty = "send_message")
    (hopen : (run env initClient inps).isOpen = true)
    (hns : OutMsg.success "Authenticated successfully" ∉ (run env initClient inps).outbox) :
    (step env (run env initClient inps) (Inbound.frame m)).id
        = (run env initClient inps).id ∧
    (step env (run env initClient inps) (Inbound.frame m)).roomId
        = (run env initClient inps).roomId ∧
    (step env (run env initClient inps) (Inbound.frame m)).hubLog
        = (run env initClient inps).hubLog ∧
    (step env (run env initClient inps) (Inbound.frame m)).appended
        = (run env initClient inps).appended ∧
    (step env (run env initClient inps) (Inbound.frame m)).isOpen = true ∧
    (m.ty = "join_room" →
      (step env (run env initClient inps) (Inbound.frame m)).outbox
        = (run env initClient inps).outbox ++ [OutMsg.err "Please authenticate first"]) ∧
    (m.ty = "send_message" →
      (step env (run env initClient inps) (Inbound.frame m)).outbox
        = (run env initClient inps).outbox
            ++ [OutMsg.err "Please authenticate and join a room first"]) := by
  have hid : (run env initClient inps).id = 0 :=
    run_inv env inps initClient (fun _ _ => rfl) hopen hns
  have hco : ¬ (run env initClient inps).isOpen = false := by simp [hopen]
  rcases hty with htyJ | htyS
  · have hstep : step env (run env initClient inps) (Inbound.frame m)
        = sendError (run env initClient inps) "Please authenticate first" := by
      simp [step, hco, htyJ, hid]
    rw [hstep]
    refine ⟨rfl, rfl, rfl, rfl, hopen, fun _ => rfl, fun hc => ?_⟩
    rw [htyJ] at hc
    exact absurd hc (by decide)
  · have hstep : step env (run env initClient inps) (Inbound.frame m)
        = sendError (run env initClient inps)
            "Please authenticate and join a room first" := by
      simp [step, hco, htyS, hid]
    rw [hstep]
    refine ⟨rfl, rfl, rfl, rfl, hopen, fun hc => ?_, fun _ => rfl⟩
    rw [htyS] at hc
    exact absurd hc (by decide)

/-- C1 witness: a join_room on a fresh socket is answered with exactly the
error frame "Please authenticate first" and the socket stays open. -/
theorem auth_gate_witness :
    (step envW initClient (Inbound.frame { ty := "join_room", roomId := 9 })).outbox
      = [OutMsg.err "Please authenticate first"] ∧
    (step envW initClient (Inbound.frame { ty := "join_room", roomId := 9 })).isOpen = true ∧
    (step envW initClient (Inbound.frame { ty := "join_room", roomId := 9 })).hubLog = [] := by
  have h := auth_gate envW [] { ty := "join_room", roomId := 9 } (Or.inl rfl) rfl (by decide)
  exact ⟨h.2.2.2.2.2.1 rfl, h.2.2.2.2.1, h.2.2.1⟩

/-- C9 witness: a 1 KiB PNG upload succeeds and is classified as an image. -/
theorem upload_contract_witness :
    uploadRespW.fileName = "cat.png" ∧ uploadRespW.mimeType = uploadMime uploadReqW ∧
    uploadRespW.messageType = GetMessageType (uploadMime uploadReqW) ∧
    (uploadRespW.messageType = "image" ↔ IsImage (uploadMime uploadReqW) = true) := by
  have h := upload_contract uploadEnvW uploadReqW rfl (by decide) rfl rfl
  have h2 := h.2 uploadRespW (by decide)
  exact ⟨h2.2.2.1, h2.2.2.2.2.1, h2.2.2.2.2.2.1, h2.2.2.2.2.2.2⟩

end GoChat
